import Mathlib

/-!
Shallow embedding of the Mailsense repository (classifiers.py, aimodel.py,
gmail_api.py, gmailhook/views.py) and proofs about its specified behaviour.

Python strings are modelled as Lean `String`/`List Char` (ASCII fragment of
Python's Unicode semantics: all string constants in the code are ASCII).
Python floats only occur as pass-through confidence scores; they are modelled
as `Rat`. Fallible collaborator calls are modelled with `Option`/`Except`.
-/

namespace Mailsense

/-- ASCII whitespace, mirroring Python's `\s` / `str.strip()` on ASCII text. -/
def isPySpace (c : Char) : Bool :=
  c == ' ' || c == '\t' || c == '\n' || c == '\r' || c == '\x0b' || c == '\x0c'

/-- ASCII lowercasing, mirroring Python `str.lower()` on ASCII text. -/
def toLowerA (c : Char) : Char :=
  if 'A' ≤ c ∧ c ≤ 'Z' then Char.ofNat (c.toNat + 32) else c

/-- ASCII uppercasing, mirroring Python `str.upper()` on ASCII text. -/
def toUpperA (c : Char) : Char :=
  if 'a' ≤ c ∧ c ≤ 'z' then Char.ofNat (c.toNat - 32) else c

/-- Python `str.lower()`. -/
def strLower (s : String) : String := ⟨s.toList.map toLowerA⟩

/-- Python `str.strip()` on a character list. -/
def pyStripList (l : List Char) : List Char :=
  ((l.dropWhile isPySpace).reverse.dropWhile isPySpace).reverse

/-- Python `str.strip()`. -/
def pyStrip (s : String) : String := ⟨pyStripList s.toList⟩

/-- Python `str.capitalize()`: first character uppercased, rest lowercased. -/
def pyCapitalize (s : String) : String :=
  match s.toList with
  | [] => ""
  | c :: t => ⟨toUpperA c :: t.map toLowerA⟩

/-- Helper: `startsWithL hay pat` tests that `pat` is an initial segment of `hay`. -/
def startsWithL : List Char → List Char → Bool
  | _, [] => true
  | [], _ :: _ => false
  | a :: as, b :: bs => a == b && startsWithL as bs

/-- Helper: `containsL pat hay` is Python's `pat in hay` substring test. -/
def containsL (pat : List Char) : List Char → Bool
  | [] => startsWithL [] pat
  | c :: t => startsWithL (c :: t) pat || containsL pat t

/-- Python `sub in s` on strings. -/
def strContainsSub (s sub : String) : Bool := containsL sub.toList s.toList

/-- Python `re.sub(r'\s+', ' ', ·)`: each maximal whitespace run becomes one space. -/
def collapseWs : List Char → List Char
  | [] => []
  | [c] => if isPySpace c then [' '] else [c]
  | a :: b :: t =>
    if isPySpace a && isPySpace b then collapseWs (b :: t)
    else (if isPySpace a then ' ' else a) :: collapseWs (b :: t)

mutual
/-- Scanner for Python `re.sub(r'<[^>]+>', '', ·)`: outside a candidate tag. -/
def rtScan : List Char → List Char
  | [] => []
  | c :: t => if c == '<' then rtTag [c] t else c :: rtScan t

/-- Inside a candidate tag: `buf` holds the `'<'` and the non-`'>'` characters
read so far; an unterminated candidate is emitted verbatim (no regex match). -/
def rtTag (buf : List Char) : List Char → List Char
  | [] => buf
  | c :: t =>
    if c == '>' then
      if buf.length == 1 then buf ++ '>' :: rtScan t else rtScan t
    else rtTag (buf ++ [c]) t
end

/-- Python `re.sub(r'<[^>]+>', '', ·)` on a character list. -/
def removeTags (l : List Char) : List Char := rtScan l

/-! ### A small regular-expression engine (Brzozowski derivatives)

Just enough of Python `re` for the fixed patterns in `classifiers.py`:
character predicates, concatenation, alternation, `*`/`+`/`?`, and
unanchored `re.search`. `.` does not match a newline (no `DOTALL`). -/

inductive RE where
  | nul
  | eps
  | chr (p : Char → Bool)
  | seq (a b : RE)
  | alt (a b : RE)
  | star (a : RE)

def RE.nullable : RE → Bool
  | .nul => false
  | .eps => true
  | .chr _ => false
  | .seq a b => a.nullable && b.nullable
  | .alt a b => a.nullable || b.nullable
  | .star _ => true

/-- Smart sequence constructor (keeps derivatives small). -/
def rseq : RE → RE → RE
  | .nul, _ => .nul
  | .eps, b => b
  | a, b => .seq a b

/-- Smart alternative constructor (keeps derivatives small). -/
def ralt : RE → RE → RE
  | .nul, b => b
  | a, .nul => a
  | a, b => .alt a b

def RE.deriv : RE → Char → RE
  | .nul, _ => .nul
  | .eps, _ => .nul
  | .chr p, c => if p c then .eps else .nul
  | .seq a b, c =>
    if a.nullable then ralt (rseq (a.deriv c) b) (b.deriv c)
    else rseq (a.deriv c) b
  | .alt a b, c => ralt (a.deriv c) (b.deriv c)
  | .star a, c => rseq (a.deriv c) (.star a)

/-- Some prefix of the input (including the empty one) matches `r`. -/
def matchesPre (r : RE) : List Char → Bool
  | [] => r.nullable
  | c :: t => r.nullable || matchesPre (r.deriv c) t

/-- Python `re.search(r, s)` as a Boolean: some substring matches. -/
def reSearch (r : RE) : List Char → Bool
  | [] => r.nullable
  | c :: t => matchesPre r (c :: t) || reSearch r t

/-- Case-insensitive literal character (the code passes `re.IGNORECASE`). -/
def lit1 (c : Char) : RE := .chr (fun d => toLowerA d == toLowerA c)

/-- Case-insensitive literal string. -/
def litS (s : String) : RE := s.toList.foldr (fun c r => .seq (lit1 c) r) .eps

/-- Python `.` (any character except newline). -/
def dotRE : RE := .chr (fun c => !(c == '\n'))

def dotStar : RE := .star dotRE

def rplus (r : RE) : RE := .seq r (.star r)

def ropt (r : RE) : RE := .alt .eps r

/-- A pattern of the shape `a.*b`. -/
def pat2 (a b : String) : RE := .seq (litS a) (.seq dotStar (litS b))

/-- A pattern of the shape `a.*b.*c`. -/
def pat3 (a b c : String) : RE :=
  .seq (litS a) (.seq dotStar (.seq (litS b) (.seq dotStar (litS c))))

/-- Embedding of `[^\s<>"]` from the URL patterns. -/
def urlChar : RE := .chr (fun c => !(isPySpace c || c == '<' || c == '>' || c == '"'))

/-- Embedding of `[a-zA-Z0-9._%+-]` from the e-mail pattern. -/
def emailLocalChar : RE :=
  .chr (fun c => c.isAlpha || c.isDigit || c == '.' || c == '_' || c == '%' || c == '+' || c == '-')

/-- Embedding of `[a-zA-Z0-9.-]` from the e-mail pattern. -/
def emailDomChar : RE := .chr (fun c => c.isAlpha || c.isDigit || c == '.' || c == '-')

/-- Embedding of `[a-zA-Z]`. -/
def alphaChar : RE := .chr (fun c => c.isAlpha)

/-- Embedding of `https?://[^\s<>"]+|www\.[^\s<>"]+`. -/
def rURL : RE :=
  .alt (.seq (litS "http") (.seq (ropt (lit1 's')) (.seq (litS "://") (rplus urlChar))))
    (.seq (litS "www.") (rplus urlChar))

/-- Embedding of `[a-zA-Z0-9._%+-]+@[a-zA-Z0-9.-]+\.[a-zA-Z]{2,}`. -/
def rEmail : RE :=
  .seq (rplus emailLocalChar)
    (.seq (.chr (fun c => c == '@'))
      (.seq (rplus emailDomChar)
        (.seq (.chr (fun c => c == '.')) (.seq alphaChar (rplus alphaChar)))))

/-- Embedding of `ftp://[^\s<>"]+`. -/
def rFTP : RE := .seq (litS "ftp://") (rplus urlChar)

/-- Embedding of `\$\d+`. -/
def rMoneyAmt : RE := .seq (.chr (fun c => c == '$')) (rplus (.chr (fun c => c.isDigit)))

/-- Embedding of `url_patterns` of `classifiers.has_links`. -/
def url_patterns : List RE := [rURL, rEmail, rFTP]

/-- Embedding of `suspicious_patterns` of `classifiers.is_suspicious_content`. -/
def suspicious_patterns : List RE :=
  [pat3 "urgent" "action" "required", pat2 "account" "suspended",
   pat2 "verify" "account", pat3 "click" "here" "immediately",
   pat3 "limited" "time" "offer", pat2 "free" "money",
   pat2 "lottery" "winner", pat2 "bank" "transfer",
   pat2 "password" "expired", pat2 "security" "alert",
   pat2 "unusual" "activity", pat2 "login" "attempt",
   pat2 "confirm" "details", pat2 "update" "information",
   pat2 "claim" "prize", pat2 "congratulations" "winner",
   pat2 "you" "won", pat2 "claim" "reward",
   pat3 "urgent" "response" "needed", pat2 "account" "locked"]

/-- Embedding of `urgent_patterns` of `classifiers.has_urgent_language`. -/
def urgent_patterns : List RE :=
  [litS "urgent", pat2 "immediate" "action", pat2 "act" "now",
   pat2 "limited" "time", pat2 "expires" "soon", pat2 "last" "chance",
   pat2 "final" "notice", litS "deadline", litS "asap",
   litS "emergency", litS "critical", pat2 "important" "notice"]

/-- Embedding of `money_patterns` of `classifiers.has_money_related_content`.  The source
lists `'bank.*account'` without the raw-string marker the sibling entries use;
the pattern text contains no backslash, so the raw and non-raw forms denote
the same pattern and it is embedded like the others. -/
def money_patterns : List RE :=
  [rMoneyAmt, litS "dollar", litS "payment", litS "invoice", litS "bill",
   pat2 "bank" "account", pat2 "credit" "card", litS "paypal",
   pat2 "bank" "transfer", pat2 "wire" "transfer", litS "check",
   litS "cash", pat2 "prize" "money", litS "refund",
   pat2 "payment" "due", pat2 "overdue" "payment"]

/-- The `for pattern in …: if re.search(…): return True` loop. -/
def searchAny (pats : List RE) (s : List Char) : Bool :=
  pats.any (fun p => reSearch p s)

/-- Embedding of `classifiers.has_links` (searches the raw content, `re.IGNORECASE`). -/
def has_links (content : String) : Bool := searchAny url_patterns content.toList

/-- Embedding of `classifiers.is_suspicious_content` (lowercases, then searches). -/
def is_suspicious_content (content : String) : Bool :=
  searchAny suspicious_patterns (strLower content).toList

/-- Embedding of `classifiers.has_urgent_language`. -/
def has_urgent_language (content : String) : Bool :=
  searchAny urgent_patterns (strLower content).toList

/-- Embedding of `classifiers.has_money_related_content`. -/
def has_money_related_content (content : String) : Bool :=
  searchAny money_patterns (strLower content).toList

/-! ### Gmail message payloads and `classifiers.py` traversals

A payload is a tree of parts (`mimeType`, optional body `data`, sub-`parts`).
`dec` abstracts `base64.urlsafe_b64decode(·).decode('utf-8', errors='ignore')`:
`none` models the decode raising (caught by the source with `pass`). -/

inductive Payload where
  | node (mimeType : String) (bodyData : Option String) (parts : List Payload)

def Payload.mime : Payload → String
  | .node mt _ _ => mt

def Payload.body : Payload → Option String
  | .node _ bd _ => bd

def Payload.children : Payload → List Payload
  | .node _ _ ps => ps

/-- Embedding of `'text/plain' in mime_type or 'text/html' in mime_type`. -/
def isTextMime (mt : String) : Bool :=
  strContainsSub mt "text/plain" || strContainsSub mt "text/html"

/-- Embedding of `'multipart' in mime_type`. -/
def isMultiMime (mt : String) : Bool := strContainsSub mt "multipart"

/-- The fragment a text part contributes in `extract_content_parts`:
`body.get('data')` must be present and truthy and the decode must succeed. -/
def leafFrag (dec : String → Option String) (p : Payload) : Option String :=
  match p.body with
  | some d => if d == "" then none else dec d
  | none => none

mutual
/-- Embedding of `extract_from_part` of `classifiers.extract_content_parts`. -/
def extractPart (dec : String → Option String) : Payload → List String
  | .node mt bd ps =>
    if isTextMime mt then
      match bd with
      | some d => if d == "" then [] else
          (match dec d with
           | some c => [c]
           | none => [])
      | none => []
    else if isMultiMime mt then extractParts dec ps
    else []

def extractParts (dec : String → Option String) : List Payload → List String
  | [] => []
  | p :: rest => extractPart dec p ++ extractParts dec rest
end

/-- Embedding of `classifiers.extract_content_parts`. -/
def extract_content_parts (dec : String → Option String) (payload : Payload) : List String :=
  extractPart dec payload

mutual
/-- Spec-side: the nodes the recursive traversal visits, in pre-order
(children are entered only under the `multipart` branch). -/
def visitedNode : Payload → List Payload
  | .node mt bd ps =>
    .node mt bd ps ::
      (if isTextMime mt then [] else if isMultiMime mt then visitedList ps else [])

def visitedList : List Payload → List Payload
  | [] => []
  | p :: rest => visitedNode p ++ visitedList rest
end

/-- Spec-side: the fragment a visited node contributes (text nodes only). -/
def fragOf (dec : String → Option String) (n : Payload) : Option String :=
  if isTextMime n.mime then leafFrag dec n else none

structure SignalResult where
  text : Bool
  link : Bool
  suspicious : Bool
  urgent_language : Bool
  money_related : Bool
deriving DecidableEq, Repr

def emptySignals : SignalResult := ⟨false, false, false, false, false⟩

/-- One iteration of the `for content in content_parts` loop of
`classifiers.classify_email_content` (each `if` only ever sets a flag). -/
def classifyStep (r : SignalResult) (content : String) : SignalResult :=
  { text := r.text || !(pyStrip content == ""),
    link := r.link || has_links content,
    suspicious := r.suspicious || is_suspicious_content content,
    urgent_language := r.urgent_language || has_urgent_language content,
    money_related := r.money_related || has_money_related_content content }

/-- The loop of `classify_email_content` over an already-extracted fragment list. -/
def classifySignals (parts : List String) : SignalResult :=
  parts.foldl classifyStep emptySignals

/-- Embedding of `classifiers.classify_email_content`. -/
def classify_email_content (dec : String → Option String) (payload : Payload) : SignalResult :=
  classifySignals (extract_content_parts dec payload)

/-- The per-fragment cleaning in `classifiers.extract_plain_text`:
tag removal, whitespace collapsing, strip. -/
def cleanFragment (content : String) : String :=
  ⟨pyStripList (collapseWs (removeTags content.toList))⟩

/-- Python `' '.join(·)`. -/
def joinSpace : List String → String
  | [] => ""
  | [x] => x
  | x :: y :: t => x ++ " " ++ joinSpace (y :: t)

/-- Embedding of `classifiers.extract_plain_text`: clean every fragment, keep the nonempty
ones, join with single spaces. -/
def extract_plain_text (dec : String → Option String) (payload : Payload) : String :=
  joinSpace
    (((extract_content_parts dec payload).map cleanFragment).filter (fun c => !(c == "")))

/-! ### `aimodel.py`

The zero-shot pipeline is the collaborator: it receives the (truncated) text,
the candidate labels and the hypothesis template, and either raises
(`Except.error`) or returns ranked labels with scores. `classifier = none`
models the model having failed to load. Each adapter is instrumented with the
number of collaborator invocations (second component). -/

structure ClsResult where
  labels : List String
  scores : List Rat

def Collaborator : Type := String → List String → String → Except String ClsResult

/-- The `[:1000] + "..."` truncation shared by the three adapters. -/
def truncText (s : String) : String :=
  if s.length > 1000 then ⟨s.toList.take 1000⟩ ++ "..." else s

def EMAIL_INTENTS : List String :=
  ["newsletter", "promotional", "personal", "work", "notification", "spam",
   "phishing", "important", "urgent", "social", "shopping", "marketing"]

/-- Embedding of `aimodel.predict_intent`, instrumented with the collaborator call count. -/
def predictIntentI (classifier : Option Collaborator) (text : String) : (String × Rat) × Nat :=
  match classifier with
  | none => (("unknown", 0), 0)
  | some f =>
    if text == "" || pyStrip text == "" then (("unknown", 0), 0)
    else
      let clean := truncText (pyStrip text)
      match f clean EMAIL_INTENTS "This email is about \x7b\x7d." with
      | .error _ => (("unknown", 0), 1)
      | .ok r =>
        match r.labels.head?, r.scores.head? with
        | some l, some s => ((l, s), 1)
        | _, _ => (("unknown", 0), 1)

def predict_intent (classifier : Option Collaborator) (text : String) : String × Rat :=
  (predictIntentI classifier text).1

/-- Embedding of `aimodel.classify_email_sentiment`, instrumented. -/
def classifyEmailSentimentI (classifier : Option Collaborator) (text : String) :
    (String × Rat) × Nat :=
  match classifier with
  | none => (("neutral", 0), 0)
  | some f =>
    if text == "" || pyStrip text == "" then (("neutral", 0), 0)
    else
      let clean := truncText (pyStrip text)
      match f clean ["positive", "negative", "neutral"] "This email has a \x7b\x7d tone." with
      | .error _ => (("neutral", 0), 1)
      | .ok r =>
        match r.labels.head?, r.scores.head? with
        | some l, some s => ((l, s), 1)
        | _, _ => (("neutral", 0), 1)

def classify_email_sentiment (classifier : Option Collaborator) (text : String) : String × Rat :=
  (classifyEmailSentimentI classifier text).1

/-- Embedding of `aimodel.classify_email_priority`, instrumented.  Note the combined text
`f"Subject: {subject}\n\n{text}".strip()` is what the emptiness test sees. -/
def classifyEmailPriorityI (classifier : Option Collaborator) (text subject : String) :
    (String × Rat) × Nat :=
  match classifier with
  | none => (("normal", 0), 0)
  | some f =>
    let combined := pyStrip ("Subject: " ++ subject ++ "\n\n" ++ text)
    if combined == "" then (("normal", 0), 0)
    else
      let ct := truncText combined
      match f ct ["high", "normal", "low"] "This email has \x7b\x7d priority." with
      | .error _ => (("normal", 0), 1)
      | .ok r =>
        match r.labels.head?, r.scores.head? with
        | some l, some s => ((l, s), 1)
        | _, _ => (("normal", 0), 1)

def classify_email_priority (classifier : Option Collaborator) (text subject : String) :
    String × Rat :=
  (classifyEmailPriorityI classifier text subject).1

/-! ### `gmail_api.py` -/

structure GLabel where
  name : String
  id : String
deriving DecidableEq, Repr

/-- The identifier the service assigns to a newly created label in this
sequential model. -/
def freshId (st : List GLabel) : String := "Label" ++ toString st.length

structure ResolveOut where
  id : String
  state : List GLabel
  created : Bool
deriving DecidableEq, Repr

/-- Embedding of `gmail_api.create_or_get_label` on the sequential happy path: list the
labels, return the id of the first exact (case-sensitive) name match,
otherwise issue a create.  The service's label store is the state and
`created` records whether a create call was issued.  (The source's
`except HttpError` fallback after a failed create re-lists to absorb
concurrent creation; creation does not fail in this sequential model.) -/
def create_or_get_label (st : List GLabel) (label_name : String) : ResolveOut :=
  match st.find? (fun l => l.name == label_name) with
  | some l => ⟨l.id, st, false⟩
  | none =>
    let newId := freshId st
    ⟨newId, st ++ [⟨label_name, newId⟩], true⟩

inductive PyExc where
  | http (msg : String)
  | generic (msg : String)
deriving DecidableEq, Repr

def pyExcMsg : PyExc → String
  | .http m => m
  | .generic m => m

/-- Embedding of `gmail_api.apply_label`, given the outcome of the underlying
`users().messages().modify(...)` call: an `HttpError` raised by the service is
caught and re-raised as a plain `Exception` with a prefixed message. -/
def apply_label (modifyResult : Except String Unit) : Except PyExc Unit :=
  match modifyResult with
  | .ok _ => .ok ()
  | .error e => .error (.generic ("Error applying labels: " ++ e))

mutual
/-- Embedding of `extract_from_part` of `gmail_api.get_message_content` (accumulating into
`content`): plain text is appended raw plus a space; html is tag-stripped,
whitespace-collapsed and stripped, then appended plus a space. -/
def gmcPart (dec : String → Option String) : Payload → String
  | .node mt bd ps =>
    if strContainsSub mt "text/plain" then
      match bd with
      | some d => if d == "" then "" else
          (match dec d with
           | some t => t ++ " "
           | none => "")
      | none => ""
    else if strContainsSub mt "text/html" then
      match bd with
      | some d => if d == "" then "" else
          (match dec d with
           | some h => cleanFragment h ++ " "
           | none => "")
      | none => ""
    else if isMultiMime mt then gmcParts dec ps
    else ""

def gmcParts (dec : String → Option String) : List Payload → String
  | [] => ""
  | p :: rest => gmcPart dec p ++ gmcParts dec rest
end

/-- Embedding of `gmail_api.get_message_content` applied to the message's payload. -/
def get_message_content (dec : String → Option String) (payload : Payload) : String :=
  pyStrip (gmcPart dec payload)

def category_labels : List String :=
  ["INBOX", "CATEGORY_PERSONAL", "CATEGORY_PROMOTIONS", "CATEGORY_SOCIAL",
   "CATEGORY_UPDATES", "CATEGORY_FORUMS"]

/-- The inner `for meta in meta_list` loop of
`gmail_api.get_messages_for_all_categories`, threading the seen-id set and the
accumulated full messages.  A missing (`none`) or empty id, or an id already
seen, is skipped. -/
def processCategory {M : Type} (fetch : String → M) :
    List (Option String) → List String → List M → List String × List M
  | [], seen, acc => (seen, acc)
  | m :: rest, seen, acc =>
    match m with
    | none => processCategory fetch rest seen acc
    | some i =>
      if i = "" ∨ i ∈ seen then processCategory fetch rest seen acc
      else processCategory fetch rest (i :: seen) (acc ++ [fetch i])

/-- Embedding of `gmail_api.get_messages_for_all_categories`: `listing` models
`list_messages` per category (a category-specific error makes the loop
`continue`); `fetch` models the full-format `messages().get` for an id. -/
def get_messages_for_all_categories {M : Type}
    (listing : String → Except Unit (List (Option String))) (fetch : String → M) : List M :=
  (category_labels.foldl
    (fun (p : List String × List M) lab =>
      match listing lab with
      | .error _ => p
      | .ok metas => processCategory fetch metas p.1 p.2)
    ([], [])).2

/-- Spec-side: first-occurrence deduplication of an id sequence, skipping ids
already in `seen`. -/
def dedupFirstAux (seen : List String) : List String → List String
  | [] => []
  | x :: xs => if x ∈ seen then dedupFirstAux seen xs else x :: dedupFirstAux (x :: seen) xs

/-- Spec-side: the valid (present and nonempty) ids of one category listing. -/
def validIds (metas : List (Option String)) : List String :=
  metas.filterMap (fun m =>
    match m with
    | some i => if i = "" then none else some i
    | none => none)

/-- Spec-side: all valid ids, in category order then listing order. -/
def allListedIds (listing : String → Except Unit (List (Option String))) : List String :=
  (category_labels.map (fun lab =>
    match listing lab with
    | .ok metas => validIds metas
    | .error _ => [])).flatten

/-! ### `gmailhook/views.py` -/

/-- The `labels` list built in `gmail_webhook` from the rule classification. -/
def buildLabels (r : SignalResult) : List String :=
  [if r.link then "Contains Link" else "Text Only"]
  ++ (if r.suspicious then
        [if r.money_related then "Potential Phishing" else "Suspicious Content"] else [])
  ++ (if r.urgent_language then ["Urgent Language"] else [])
  ++ (if r.money_related then ["Money Related"] else [])

/-- Python `round(x, 2)` on the rational model: round half to even. -/
def round2 (q : Rat) : Rat :=
  let x := q * 100
  let n : Int := x.floor
  let r := x - n
  let m : Int :=
    if r > 1 / 2 then n + 1
    else if r < 1 / 2 then n
    else if n % 2 = 0 then n else n + 1
  (m : Rat) / 100

/-- A fetched Gmail message as the webhook loop sees it: `message['id']`
(missing models a `KeyError`) and `message.get('payload', {})`. -/
structure WMsg where
  idOpt : Option String
  payload : Option Payload

/-- Embedding of `message.get('payload', {})`: a missing payload behaves as an empty dict,
whose `mimeType` defaults to `''`. -/
def WMsg.payloadOr (m : WMsg) : Payload :=
  match m.payload with
  | some p => p
  | none => .node "" none []

structure Detail where
  message_id : String
  applied_labels : List String
  ai_label : String
  intent : Option String
  confidence : Rat
  rule_classification : SignalResult
  potential_phishing : Bool
deriving DecidableEq, Repr

inductive DetailEntry where
  | ok (d : Detail)
  | err (message_id : Option String) (error : String)
deriving DecidableEq, Repr

/-- Collaborator context for one webhook message.  `resolve round name` is the
label id `create_or_get_label` yields for `name` in resolution round `round`
(0 = initial resolution, 1 = the re-resolution inside the retry branch);
`modifyAttempt k` is the outcome of the k-th `modify` call for this message. -/
structure Ctx where
  dec : String → Option String
  classifier : Option Collaborator
  resolve : Nat → String → String
  modifyAttempt : Nat → Except String Unit

/-- The body of the per-message `try` block of `gmailhook.views.gmail_webhook`:
classify, extract text, AI-label, build labels, resolve ids, apply with the
`except HttpError` retry (which re-resolves all names), build the detail. -/
def processOne (ctx : Ctx) (msg : WMsg) : Except PyExc Detail :=
  match msg.idOpt with
  | none => .error (.generic "KeyError: id")
  | some msg_id =>
    let payload := msg.payloadOr
    let rule_result := classify_email_content ctx.dec payload
    let text := get_message_content ctx.dec payload
    let ic :=
      if !(pyStrip text == "") then
        let p := predict_intent ctx.classifier text
        (some p.1, p.2, "AI:" ++ pyCapitalize p.1)
      else (none, 0, "AI:Unknown")
    let names := buildLabels rule_result ++ [ic.2.2]
    let ids0 := names.map (ctx.resolve 0)
    let applied : Except PyExc (List String) :=
      match apply_label (ctx.modifyAttempt 0) with
      | .ok _ => .ok ids0
      | .error e =>
        match e with
        | .http _ =>
          let ids1 := names.map (ctx.resolve 1)
          (match apply_label (ctx.modifyAttempt 1) with
           | .ok _ => .ok ids1
           | .error e2 => .error e2)
        | .generic m => .error (.generic m)
    match applied with
    | .error e => .error e
    | .ok _ =>
      .ok { message_id := msg_id,
            applied_labels := names,
            ai_label := ic.2.2,
            intent := ic.1,
            confidence := round2 ic.2.1,
            rule_classification := rule_result,
            potential_phishing := rule_result.suspicious && rule_result.money_related }

/-- The `for message in messages` loop of `gmail_webhook`: one detail entry per
message; successes increment the counter; a raised exception appends an error
entry carrying `message.get('id')` and `str(e)`. -/
def webhookLoop (process : WMsg → Except PyExc Detail) (msgs : List WMsg) :
    Nat × List DetailEntry :=
  msgs.foldl
    (fun (p : Nat × List DetailEntry) m =>
      match process m with
      | .ok d => (p.1 + 1, p.2 ++ [.ok d])
      | .error e => (p.1, p.2 ++ [.err m.idOpt (pyExcMsg e)]))
    (0, [])

/-! ### Concrete collaborators used by witnesses and counterexamples -/

/-- A collaborator that always answers with a ranked result. -/
def goodCollab : Collaborator := fun _ _ _ => .ok ⟨["work"], [9 / 10]⟩

/-- A collaborator that always raises. -/
def badCollab : Collaborator := fun _ _ _ => .error "boom"

/-- A collaborator that returns a malformed (empty-ranking) response. -/
def emptyCollab : Collaborator := fun _ _ _ => .ok ⟨[], [1]⟩

/-- C5: `predict_intent` returns `("unknown", 0.0)` with no collaborator call
on empty or whitespace-only input or when the model is unavailable, and
returns the same fallback, never propagating an exception, when the
collaborator raises or returns a malformed (empty-ranking) response. -/
theorem C5_predict_intent_fallback :
    (∀ (classifier : Option Collaborator) (text : String),
        text = "" ∨ pyStrip text = "" →
        predictIntentI classifier text = (("unknown", 0), 0)) ∧
    (∀ text : String, predictIntentI none text = (("unknown", 0), 0)) ∧
    (∀ (f : Collaborator) (text : String),
        (∀ t c h, ∃ e, f t c h = .error e) →
        predict_intent (some f) text = ("unknown", 0)) ∧
    (∀ (f : Collaborator) (text : String) (r : ClsResult),
        (∀ t c h, f t c h = .ok r) → r.labels = [] →
        predict_intent (some f) text = ("unknown", 0)) := by
  refine ⟨?_, ?_, ?_, ?_⟩
  · intro classifier text h
    cases classifier with
    | none => rfl
    | some f =>
      have hb : (text == "" || pyStrip text == "") = true := by
        rcases h with h | h <;> simp [h]
      simp [predictIntentI, hb]
  · intro text; rfl
  · intro f text hf
    by_cases hb : (text == "" || pyStrip text == "") = true
    · simp [predict_intent, predictIntentI, hb]
    · obtain ⟨e, he⟩ :=
        hf (truncText (pyStrip text)) EMAIL_INTENTS "This email is about \x7b\x7d."
      simp [predict_intent, predictIntentI, hb, he]
  · intro f text r hf hl
    by_cases hb : (text == "" || pyStrip text == "") = true
    · simp [predict_intent, predictIntentI, hb]
    · simp [predict_intent, predictIntentI, hb, hf, hl]

/-- Witness for C5 at concrete inputs. -/
theorem C5_witness :
    predictIntentI (some goodCollab) "  " = (("unknown", 0), 0) ∧
    predictIntentI none "hello" = (("unknown", 0), 0) ∧
    predict_intent (some badCollab) "hello" = ("unknown", 0) ∧
    predict_intent (some emptyCollab) "hello" = ("unknown", 0) :=
  ⟨C5_predict_intent_fallback.1 (some goodCollab) "  " (Or.inr (by decide)),
   C5_predict_intent_fallback.2.1 "hello",
   C5_predict_intent_fallback.2.2.1 badCollab "hello" (fun _ _ _ => ⟨"boom", rfl⟩),
   C5_predict_intent_fallback.2.2.2 emptyCollab "hello" ⟨[], [1]⟩ (fun _ _ _ => rfl) rfl⟩

/-- C3 as stated is false: with the model unavailable the sentiment adapter
falls back to `("neutral", 0.0)`, not `("unknown", 0.0)`; and the priority
adapter does invoke the collaborator on whitespace-only text, because its
combined text `"Subject: \n\n ".strip() = "Subject:"` is nonempty. -/
theorem C3_counterexample :
    classify_email_sentiment none "hello" ≠ ("unknown", 0) ∧
    (classifyEmailPriorityI (some goodCollab) " " "").2 ≠ 0 := by
  constructor <;> decide

/-- Whenever the combined subject text is nonempty, the priority adapter
invokes the collaborator exactly once. -/
theorem priority_calls_when_nonempty (f : Collaborator) (text subject : String)
    (h : ¬ pyStrip ("Subject: " ++ subject ++ "\n\n" ++ text) = "") :
    (classifyEmailPriorityI (some f) text subject).2 = 1 := by
  have hb : (pyStrip ("Subject: " ++ subject ++ "\n\n" ++ text) == "") = false := by
    simpa using h
  simp only [classifyEmailPriorityI, hb]
  cases f (truncText (pyStrip ("Subject: " ++ subject ++ "\n\n" ++ text)))
      ["high", "normal", "low"] "This email has \x7b\x7d priority." with
  | error e => simp
  | ok r =>
    rcases hl : r.labels.head? with _ | l <;> rcases hs : r.scores.head? with _ | s <;>
      simp [hl, hs]

/-- C3 amended: the sentiment and priority adapters follow the intent
adapter's truncate/fallback structure, but the sentiment fallback is
`("neutral", 0.0)` and the priority fallback is `("normal", 0.0)`, and the
priority adapter classifies `f"Subject: {subject}\n\n{text}".strip()`, so a
whitespace-only text with empty subject is nonempty and does invoke the
collaborator. -/
theorem C3_amended_adapters :
    (∀ (classifier : Option Collaborator) (text : String),
        text = "" ∨ pyStrip text = "" →
        classifyEmailSentimentI classifier text = (("neutral", 0), 0)) ∧
    (∀ text : String, classifyEmailSentimentI none text = (("neutral", 0), 0)) ∧
    (∀ (f : Collaborator) (text : String),
        (∀ t c h, ∃ e, f t c h = .error e) →
        classify_email_sentiment (some f) text = ("neutral", 0)) ∧
    (∀ text subject : String, classifyEmailPriorityI none text subject = (("normal", 0), 0)) ∧
    (∀ (f : Collaborator) (text subject : String),
        (∀ t c h, ∃ e, f t c h = .error e) →
        classify_email_priority (some f) text subject = ("normal", 0)) ∧
    (∀ f : Collaborator, (classifyEmailPriorityI (some f) " " "").2 = 1) := by
  refine ⟨?_, ?_, ?_, ?_, ?_, ?_⟩
  · intro classifier text h
    cases classifier with
    | none => rfl
    | some f =>
      have hb : (text == "" || pyStrip text == "") = true := by
        rcases h with h | h <;> simp [h]
      simp [classifyEmailSentimentI, hb]
  · intro text; rfl
  · intro f text hf
    by_cases hb : (text == "" || pyStrip text == "") = true
    · simp [classify_email_sentiment, classifyEmailSentimentI, hb]
    · obtain ⟨e, he⟩ :=
        hf (truncText (pyStrip text)) ["positive", "negative", "neutral"]
          "This email has a \x7b\x7d tone."
      simp [classify_email_sentiment, classifyEmailSentimentI, hb, he]
  · intro text subject; rfl
  · intro f text subject hf
    by_cases hb : (pyStrip ("Subject: " ++ subject ++ "\n\n" ++ text) == "") = true
    · simp [classify_email_priority, classifyEmailPriorityI, hb]
    · obtain ⟨e, he⟩ :=
        hf (truncText (pyStrip ("Subject: " ++ subject ++ "\n\n" ++ text)))
          ["high", "normal", "low"] "This email has \x7b\x7d priority."
      simp [classify_email_priority, classifyEmailPriorityI, hb, he]
  · intro f
    exact priority_calls_when_nonempty f " " "" (by decide)

/-- Witness for C3 (amended) at concrete inputs. -/
theorem C3_witness :
    classifyEmailSentimentI (some goodCollab) "  " = (("neutral", 0), 0) ∧
    classify_email_sentiment (some badCollab) "hi" = ("neutral", 0) ∧
    classify_email_priority (some badCollab) "hi" "s" = ("normal", 0) ∧
    (classifyEmailPriorityI (some goodCollab) " " "").2 = 1 :=
  ⟨C3_amended_adapters.1 (some goodCollab) "  " (Or.inr (by decide)),
   C3_amended_adapters.2.2.1 badCollab "hi" (fun _ _ _ => ⟨"boom", rfl⟩),
   C3_amended_adapters.2.2.2.2.1 badCollab "hi" "s" (fun _ _ _ => ⟨"boom", rfl⟩),
   C3_amended_adapters.2.2.2.2.2 goodCollab⟩

/-- C6: `create_or_get_label` never duplicates a label name in sequential use:
an exact (case-sensitive) name match in the listing is returned as-is with no
create call; re-running on the resulting state returns the same id, leaves the
state unchanged and issues no create; after a create the state holds exactly
one label with that name. -/
theorem C6_create_or_get_label_idempotent :
    (∀ (st : List GLabel) (n : String) (l : GLabel),
        st.find? (fun g => g.name == n) = some l →
        create_or_get_label st n = ⟨l.id, st, false⟩) ∧
    (∀ (st : List GLabel) (n : String),
        create_or_get_label (create_or_get_label st n).state n =
          ⟨(create_or_get_label st n).id, (create_or_get_label st n).state, false⟩) ∧
    (∀ (st : List GLabel) (n : String),
        st.find? (fun g => g.name == n) = none →
        ((create_or_get_label st n).state.filter (fun g => g.name == n)).length = 1) := by
  refine ⟨?_, ?_, ?_⟩
  · intro st n l h
    simp [create_or_get_label, h]
  · intro st n
    cases h : st.find? (fun g => g.name == n) with
    | some l => simp [create_or_get_label, h]
    | none =>
      have h2 : ((st ++ [⟨n, freshId st⟩] : List GLabel).find?
          (fun g => g.name == n)) = some ⟨n, freshId st⟩ := by
        rw [List.find?_append, h]
        simp [List.find?]
      simp [create_or_get_label, h, h2]
  · intro st n h
    have hall : ∀ g ∈ st, ¬ ((fun l => l.name == n) g = true) :=
      List.find?_eq_none.mp h
    have hf : st.filter (fun g => g.name == n) = [] := by
      rw [List.filter_eq_nil_iff]
      exact hall
    simp [create_or_get_label, h, List.filter_append, hf, List.filter]

/-- Witness for C6 at a concrete label store. -/
theorem C6_witness :
    create_or_get_label [⟨"Urgent Language", "L7"⟩] "Urgent Language" =
      ⟨"L7", [⟨"Urgent Language", "L7"⟩], false⟩ ∧
    ((create_or_get_label [] "Money Related").state.filter
        (fun g => g.name == "Money Related")).length = 1 :=
  ⟨C6_create_or_get_label_idempotent.1 _ _ ⟨"Urgent Language", "L7"⟩ (by decide),
   C6_create_or_get_label_idempotent.2.2 [] "Money Related" (by decide)⟩

/-- C2: the fragment `extract_plain_text` emits for an html-text leaf is the
decoded body with markup tags removed, whitespace runs collapsed to single
spaces, and leading/trailing whitespace trimmed (`cleanFragment`). -/
theorem C2_html_leaf_fragment (dec : String → Option String) (mt d s : String)
    (ps : List Payload) (hmt : strContainsSub mt "text/html" = true) (hd : d ≠ "")
    (hdec : dec d = some s) :
    extract_plain_text dec (.node mt (some d) ps) = cleanFragment s := by
  have ht : isTextMime mt = true := by simp [isTextMime, hmt]
  have hdb : (d == "") = false := by simpa using hd
  have hparts : extract_content_parts dec (.node mt (some d) ps) = [s] := by
    simp [extract_content_parts, extractPart, ht, hdb, hdec]
  rw [extract_plain_text, hparts]
  by_cases hc : (cleanFragment s == "") = true
  · simpa [hc, joinSpace] using (eq_of_beq hc).symm
  · simp [hc, joinSpace]

/-- Decoder used by the C2 witness. -/
def c2dec : String → Option String :=
  fun b => if b == "PGI+" then some "<b>Hello</b>  world " else none

/-- Witness for C2 at a concrete html leaf. -/
theorem C2_witness :
    extract_plain_text c2dec (.node "text/html" (some "PGI+") []) =
      cleanFragment "<b>Hello</b>  world " ∧
    cleanFragment "<b>Hello</b>  world " = "Hello world" :=
  ⟨C2_html_leaf_fragment c2dec "text/html" "PGI+" "<b>Hello</b>  world " []
      (by decide) (by decide) rfl,
   by decide⟩

mutual
/-- The extraction equals a filterMap over the pre-order visit of one part. -/
theorem extractPart_eq_visited (dec : String → Option String) :
    ∀ p : Payload, extractPart dec p = (visitedNode p).filterMap (fragOf dec)
  | .node mt bd ps => by
    by_cases ht : isTextMime mt = true
    · simp only [extractPart, visitedNode, ht, if_true, List.filterMap, fragOf,
        Payload.mime, Payload.body, leafFrag]
      cases bd with
      | none => simp
      | some d =>
        by_cases hd : (d == "") = true
        · simp [hd]
        · cases hdd : dec d <;> simp [hd, hdd]
    · by_cases hm : isMultiMime mt = true
      · have h := extractParts_eq_visited dec ps
        simp [extractPart, visitedNode, ht, hm, fragOf, Payload.mime, h]
      · simp [extractPart, visitedNode, ht, hm, fragOf, Payload.mime]

/-- The extraction equals a filterMap over the pre-order visit of a part list. -/
theorem extractParts_eq_visited (dec : String → Option String) :
    ∀ l : List Payload, extractParts dec l = (visitedList l).filterMap (fragOf dec)
  | [] => by simp [extractParts, visitedList]
  | p :: rest => by
    have h1 := extractPart_eq_visited dec p
    have h2 := extractParts_eq_visited dec rest
    simp [extractParts, visitedList, List.filterMap_append, h1, h2]
end

/-- C4: `extract_content_parts` emits exactly the fragments of the
plain-text/html-text nodes among the pre-order-visited nodes — one per text
node whose body data is present, truthy and decodes; none for multipart or
unrecognized nodes; a failed decode (`dec _ = none`) silently omits that
fragment (the embedding is total: nothing is raised to the caller). -/
theorem C4_decode_traversal (dec : String → Option String) (p : Payload) :
    extract_content_parts dec p = (visitedNode p).filterMap (fragOf dec) :=
  extractPart_eq_visited dec p

/-- The classification loop, over any initial accumulator, computes a
field-wise `any` over the fragments. -/
theorem foldl_classifyStep (l : List String) (init : SignalResult) :
    l.foldl classifyStep init =
      ⟨init.text || l.any (fun c => !(pyStrip c == "")),
       init.link || l.any has_links,
       init.suspicious || l.any is_suspicious_content,
       init.urgent_language || l.any has_urgent_language,
       init.money_related || l.any has_money_related_content⟩ := by
  induction l generalizing init with
  | nil => simp
  | cons x t ih => simp [classifyStep, ih, Bool.or_assoc]

/-- Lemma: `classifySignals` is a field-wise `any` over the fragments. -/
theorem classifySignals_eq (l : List String) :
    classifySignals l =
      ⟨l.any (fun c => !(pyStrip c == "")), l.any has_links,
       l.any is_suspicious_content, l.any has_urgent_language,
       l.any has_money_related_content⟩ := by
  simpa [classifySignals, emptySignals] using foldl_classifyStep l emptySignals

/-- Lemma: `List.any` only depends on the members, so it is permutation-invariant. -/
theorem any_perm {α : Type} {l l' : List α} (h : l.Perm l') (p : α → Bool) :
    l.any p = l'.any p := by
  rw [Bool.eq_iff_iff]
  simp only [List.any_eq_true]
  exact ⟨fun ⟨x, hx, hp⟩ => ⟨x, h.mem_iff.mp hx, hp⟩,
         fun ⟨x, hx, hp⟩ => ⟨x, h.mem_iff.mpr hx, hp⟩⟩

/-- C9: the classification loop is monotonic under fragment aggregation — a
signal (or the text flag) tripped by any single member fragment is set in the
aggregate — and permuting the fragment list leaves the whole `SignalResult`
unchanged. -/
theorem C9_classify_monotone_and_perm :
    (∀ (parts : List String) (c : String), c ∈ parts →
        ((!(pyStrip c == "")) = true → (classifySignals parts).text = true) ∧
        (has_links c = true → (classifySignals parts).link = true) ∧
        (is_suspicious_content c = true → (classifySignals parts).suspicious = true) ∧
        (has_urgent_language c = true → (classifySignals parts).urgent_language = true) ∧
        (has_money_related_content c = true →
          (classifySignals parts).money_related = true)) ∧
    (∀ parts parts' : List String, parts.Perm parts' →
        classifySignals parts = classifySignals parts') := by
  constructor
  · intro parts c hc
    refine ⟨?_, ?_, ?_, ?_, ?_⟩ <;> intro h <;>
      · simp only [classifySignals_eq, List.any_eq_true]
        exact ⟨c, hc, h⟩
  · intro parts parts' h
    simp [classifySignals_eq, any_perm h]

/-- Witness for C9 at concrete fragment lists. -/
theorem C9_witness :
    (classifySignals ["pay the invoice", ""]).money_related = true ∧
    classifySignals ["a", "b"] = classifySignals ["b", "a"] :=
  ⟨(C9_classify_monotone_and_perm.1 ["pay the invoice", ""] "pay the invoice"
      (by decide)).2.2.2.2 (by decide),
   C9_classify_monotone_and_perm.2 ["a", "b"] ["b", "a"] (List.Perm.swap "b" "a" [])⟩

/-- The scenario text of C8. -/
def phishText : String :=
  "URGENT: Your bank account has been suspended. Click here immediately..."

/-- C8: the phishing scenario trips `suspicious`, `urgent_language` and
`money_related` (the latter via the `bank.*account` pattern, whose missing
raw-string marker is immaterial since it contains no backslash), finds no
link, and the constructed label list is exactly `Text Only`,
`Potential Phishing`, `Urgent Language`, `Money Related` — so it includes the
three labels the claim names. -/
theorem C8_phishing_scenario :
    is_suspicious_content phishText = true ∧
    has_urgent_language phishText = true ∧
    has_money_related_content phishText = true ∧
    reSearch (pat2 "bank" "account") (strLower phishText).toList = true ∧
    has_links phishText = false ∧
    buildLabels (classifySignals [phishText]) =
      ["Text Only", "Potential Phishing", "Urgent Language", "Money Related"] ∧
    "Potential Phishing" ∈ buildLabels (classifySignals [phishText]) ∧
    "Urgent Language" ∈ buildLabels (classifySignals [phishText]) ∧
    "Money Related" ∈ buildLabels (classifySignals [phishText]) := by
  have heq : buildLabels (classifySignals [phishText]) =
      ["Text Only", "Potential Phishing", "Urgent Language", "Money Related"] := by
    decide
  refine ⟨by decide, by decide, by decide, by decide, by decide, heq, ?_, ?_, ?_⟩ <;>
    simp [heq]

/-- The webhook loop over any initial accumulator. -/
theorem webhookLoop_aux (process : WMsg → Except PyExc Detail) :
    ∀ (msgs : List WMsg) (n : Nat) (acc : List DetailEntry),
      msgs.foldl
        (fun (p : Nat × List DetailEntry) m =>
          match process m with
          | .ok d => (p.1 + 1, p.2 ++ [.ok d])
          | .error e => (p.1, p.2 ++ [.err m.idOpt (pyExcMsg e)])) (n, acc) =
      (n + (msgs.filter (fun m => (process m).isOk)).length,
       acc ++ msgs.map (fun m =>
         match process m with
         | .ok d => DetailEntry.ok d
         | .error e => DetailEntry.err m.idOpt (pyExcMsg e))) := by
  intro msgs
  induction msgs with
  | nil => intro n acc; simp
  | cons m rest ih =>
    intro n acc
    cases hm : process m with
    | ok d =>
      simp only [List.foldl_cons, List.filter_cons, List.map_cons, hm, Except.isOk,
        Except.toBool, ih, List.length_cons, List.append_assoc, List.cons_append,
        List.nil_append, if_true, Prod.mk.injEq]
      exact ⟨by omega, trivial⟩
    | error e =>
      simp [hm, ih, Except.isOk, Except.toBool]

/-- C10: the processed count equals the number of messages whose processing
succeeded; every message — failing or not — contributes exactly one detail
entry (a failure contributes an error entry carrying `message.get('id')` and
the error text, which by construction has no labels or signals); hence the
count never exceeds the detail-list length. -/
theorem C10_processed_count (process : WMsg → Except PyExc Detail) (msgs : List WMsg) :
    (webhookLoop process msgs).1 = (msgs.filter (fun m => (process m).isOk)).length ∧
    (webhookLoop process msgs).2 = msgs.map (fun m =>
      match process m with
      | .ok d => DetailEntry.ok d
      | .error e => DetailEntry.err m.idOpt (pyExcMsg e)) ∧
    (webhookLoop process msgs).1 ≤ (webhookLoop process msgs).2.length := by
  have h := webhookLoop_aux process msgs 0 []
  rw [webhookLoop, h]
  refine ⟨by simp, by simp, ?_⟩
  simpa using List.length_filter_le _ msgs

/-- The inner category loop accumulates the first-occurrence deduplication of
the listing's valid ids, and pushes exactly those ids onto the seen set. -/
theorem processCategory_eq {M : Type} (fetch : String → M) :
    ∀ (metas : List (Option String)) (seen : List String) (acc : List M),
      processCategory fetch metas seen acc =
        ((dedupFirstAux seen (validIds metas)).reverse ++ seen,
         acc ++ (dedupFirstAux seen (validIds metas)).map fetch) := by
  intro metas
  induction metas with
  | nil => intro seen acc; simp [processCategory, validIds, dedupFirstAux]
  | cons m rest ih =>
    intro seen acc
    cases m with
    | none => simp [processCategory, validIds, List.filterMap_cons, ih]
    | some i =>
      by_cases hi : i = ""
      · subst hi
        simp [processCategory, validIds, List.filterMap_cons, ih]
      · by_cases hs : i ∈ seen
        · simp [processCategory, validIds, List.filterMap_cons, hi, hs, dedupFirstAux, ih]
        · simp [processCategory, validIds, List.filterMap_cons, hi, hs, dedupFirstAux, ih,
            List.append_assoc]

/-- First-occurrence dedup splits over append, the tail deduped against the
seen set the head loop leaves behind. -/
theorem dedupFirstAux_append :
    ∀ (a b seen : List String),
      dedupFirstAux seen (a ++ b) =
        dedupFirstAux seen a ++
          dedupFirstAux ((dedupFirstAux seen a).reverse ++ seen) b
  | [], b, seen => by simp [dedupFirstAux]
  | x :: t, b, seen => by
    by_cases hx : x ∈ seen
    · simp [dedupFirstAux, hx, dedupFirstAux_append t b seen]
    · simp [dedupFirstAux, hx, dedupFirstAux_append t b (x :: seen), List.append_assoc]

/-- Membership in the first-occurrence dedup. -/
theorem mem_dedupFirstAux (x : String) :
    ∀ (l seen : List String), x ∈ dedupFirstAux seen l ↔ x ∈ l ∧ x ∉ seen
  | [], seen => by simp [dedupFirstAux]
  | y :: t, seen => by
    by_cases hy : y ∈ seen
    · simp only [dedupFirstAux, if_pos hy, mem_dedupFirstAux x t seen, List.mem_cons]
      constructor
      · rintro ⟨hx, hn⟩
        exact ⟨Or.inr hx, hn⟩
      · rintro ⟨rfl | hx, hn⟩
        · exact absurd hy hn
        · exact ⟨hx, hn⟩
    · simp only [dedupFirstAux, if_neg hy, List.mem_cons, mem_dedupFirstAux x t (y :: seen)]
      constructor
      · rintro (rfl | ⟨hx, hn⟩)
        · exact ⟨Or.inl rfl, hy⟩
        · exact ⟨Or.inr hx, fun hc => hn (Or.inr hc)⟩
      · rintro ⟨rfl | hx, hn⟩
        · exact Or.inl rfl
        · by_cases hxy : x = y
          · exact Or.inl hxy
          · exact Or.inr ⟨hx, fun hc => hc.elim hxy hn⟩

/-- The first-occurrence dedup has no duplicates. -/
theorem dedupFirstAux_nodup : ∀ (l seen : List String), (dedupFirstAux seen l).Nodup
  | [], _ => List.nodup_nil
  | y :: t, seen => by
    by_cases hy : y ∈ seen
    · simpa [dedupFirstAux, hy] using dedupFirstAux_nodup t seen
    · simp only [dedupFirstAux, if_neg hy]
      refine List.nodup_cons.mpr ⟨?_, dedupFirstAux_nodup t (y :: seen)⟩
      intro hc
      exact ((mem_dedupFirstAux y t (y :: seen)).mp hc).2 (List.mem_cons_self y seen)

/-- The category fold accumulates the first-occurrence dedup of all valid ids,
mapped through the fetch. -/
theorem get_messages_aux {M : Type}
    (listing : String → Except Unit (List (Option String))) (fetch : String → M) :
    ∀ (cats seen : List String) (acc : List M),
      cats.foldl
        (fun (p : List String × List M) lab =>
          match listing lab with
          | .error _ => p
          | .ok metas => processCategory fetch metas p.1 p.2) (seen, acc) =
      ((dedupFirstAux seen ((cats.map (fun lab =>
          match listing lab with
          | .ok metas => validIds metas
          | .error _ => [])).flatten)).reverse ++ seen,
       acc ++ (dedupFirstAux seen ((cats.map (fun lab =>
          match listing lab with
          | .ok metas => validIds metas
          | .error _ => [])).flatten)).map fetch) := by
  intro cats
  induction cats with
  | nil => intro seen acc; simp [dedupFirstAux]
  | cons lab rest ih =>
    intro seen acc
    cases hl : listing lab with
    | error u => simp [hl, ih, dedupFirstAux]
    | ok metas =>
      simp only [List.foldl_cons, hl]
      rw [processCategory_eq fetch metas seen acc, ih]
      simp only [List.map_cons, List.flatten_cons, hl, dedupFirstAux_append,
        List.reverse_append, List.map_append, List.append_assoc]

/-- Lemma: `get_messages_for_all_categories` fetches exactly the first-occurrence
dedup of all valid listed ids. -/
theorem get_messages_eq {M : Type}
    (listing : String → Except Unit (List (Option String))) (fetch : String → M) :
    get_messages_for_all_categories listing fetch =
      (dedupFirstAux [] (allListedIds listing)).map fetch := by
  have h := get_messages_aux listing fetch category_labels [] []
  simp only [get_messages_for_all_categories, allListedIds, h, List.nil_append]

/-- C7: the orchestrator fetches and processes each listed message id exactly
once, attributed to the first category in which it was seen: the fetched
messages are the fetches of the first-occurrence dedup (in category order then
listing order) of all valid listed ids; that id list has no duplicates, and an
id listed anywhere occurs in it exactly once — so the downstream per-message
loop yields exactly one detail for it. -/
theorem C7_dedup_across_categories {M : Type}
    (listing : String → Except Unit (List (Option String))) (fetch : String → M) :
    get_messages_for_all_categories listing fetch =
      (dedupFirstAux [] (allListedIds listing)).map fetch ∧
    (dedupFirstAux [] (allListedIds listing)).Nodup ∧
    (∀ x : String, x ∈ allListedIds listing →
        (dedupFirstAux [] (allListedIds listing)).count x = 1) := by
  refine ⟨get_messages_eq listing fetch, dedupFirstAux_nodup _ _, ?_⟩
  intro x hx
  exact List.count_eq_one_of_mem (dedupFirstAux_nodup _ _)
    ((mem_dedupFirstAux x _ _).mpr ⟨hx, by simp⟩)

/-- Listing used by the C7 witness: id `a` appears in two categories, one
listing carries a missing and an empty id, one category errors. -/
def c7listing : String → Except Unit (List (Option String)) :=
  fun lab =>
    if lab == "INBOX" then .ok [some "a", some "b", none]
    else if lab == "CATEGORY_PERSONAL" then .ok [some "a", some "c", some ""]
    else if lab == "CATEGORY_SOCIAL" then .error ()
    else .ok []

/-- Witness for C7 at a concrete listing. -/
theorem C7_witness :
    get_messages_for_all_categories c7listing (fun i => i) = ["a", "b", "c"] ∧
    (dedupFirstAux [] (allListedIds c7listing)).count "a" = 1 := by
  have h := C7_dedup_across_categories c7listing (fun i : String => i)
  exact ⟨by rw [h.1]; decide, h.2.2 "a" (by decide)⟩

/-- Context of the C1 scenario: the first modify call fails with a transient
collaborator (Http) error and the second would succeed. -/
def c1ctx : Ctx :=
  { dec := fun s => some s,
    classifier := none,
    resolve := fun _ n => "id-" ++ n,
    modifyAttempt := fun k => if k == 0 then .error "503 backend error" else .ok () }

/-- The message of the C1 scenario. -/
def c1msg : WMsg := ⟨some "m1", some (.node "text/plain" (some "Hello") [])⟩

/-- Is this outcome the kind the `except HttpError:` clause in the webhook
would catch? -/
def isHttpErr {α : Type} : Except PyExc α → Bool
  | .error (.http _) => true
  | _ => false

/-- C1 fails on the code: `apply_label` converts every HttpError of the
underlying modify call into a plain Exception, so the webhook's
`except HttpError:` retry (with its re-resolution of all label names) is
unreachable — on a transient first-attempt failure whose retry would succeed
(`c1ctx`), the batch records an error detail and counts the message as
unprocessed instead of retrying. -/
theorem C1_retry_unreachable :
    (∀ mr : Except String Unit, isHttpErr (apply_label mr) = false) ∧
    webhookLoop (processOne c1ctx) [c1msg] =
      (0, [.err (some "m1") "Error applying labels: 503 backend error"]) := by
  constructor
  · intro mr
    cases mr <;> rfl
  · decide

end Mailsense
